import Mathlib

/-!
Shallow embedding of the `bible-io` Rust library (modules `bible.rs`,
`bible_books_enum.rs`, `book.rs`, `chapter.rs`, `verse.rs`,
`search_index.rs` — the modules exported by `lib.rs`).  Rust `usize`
values are modelled as `Nat` (with an explicit `2 ^ 64` bound where the
source can overflow, namely integer parsing), `Vec`/slices as `List`,
`HashMap` as association lists with unique keys maintained by the same
entry-API operations the source uses, and fallible functions as
`Option`/`Except`.
-/

/-- The character U+007B, written numerically. -/
def lbraceChar : Char := Char.ofNat 123

/-- The character U+007D, written numerically. -/
def rbraceChar : Char := Char.ofNat 125

/-- Rust `u8::to_ascii_lowercase` on a char: maps only ASCII `A`-`Z` (65-90). -/
def lowerAsciiChar (c : Char) : Char :=
  if 65 ≤ c.toNat && c.toNat ≤ 90 then Char.ofNat (c.toNat + 32) else c

/-- Rust `str::to_ascii_lowercase` on a list of chars. -/
def lowerAsciiList (cs : List Char) : List Char :=
  cs.map lowerAsciiChar

/-- Rust `str::to_ascii_lowercase`, producing a `String`. -/
def toAsciiLowercase (s : String) : String :=
  String.mk (lowerAsciiList s.data)

/-- Rust `str::eq_ignore_ascii_case`: equality after ASCII lowercasing. -/
def eqIgnoreAsciiCase (s t : String) : Bool :=
  lowerAsciiList s.data = lowerAsciiList t.data

/-- Rust `char::is_ascii_alphanumeric`: `0`-`9`, `A`-`Z` or `a`-`z`. -/
def isAsciiAlphanumeric (c : Char) : Bool :=
  (48 ≤ c.toNat && c.toNat ≤ 57) ||
  (65 ≤ c.toNat && c.toNat ≤ 90) ||
  (97 ≤ c.toNat && c.toNat ≤ 122)

/-- Rust `char::is_ascii_digit`. -/
def isAsciiDigit (c : Char) : Bool :=
  48 ≤ c.toNat && c.toNat ≤ 57

/-- Unicode `White_Space` code points, as used by Rust `char::is_whitespace`
(and hence by `str::trim`). -/
def isRustWhitespace (c : Char) : Bool :=
  c.toNat ∈ [9, 10, 11, 12, 13, 32, 133, 160, 5760,
    8192, 8193, 8194, 8195, 8196, 8197, 8198, 8199, 8200, 8201, 8202,
    8232, 8233, 8239, 8287, 12288]

/-- Drop leading whitespace from a char list. -/
def dropLeadingWs (cs : List Char) : List Char :=
  cs.dropWhile isRustWhitespace

/-- Rust `str::trim`: drop whitespace from both ends. -/
def trimChars (cs : List Char) : List Char :=
  ((dropLeadingWs cs.reverse).reverse : List Char) |> dropLeadingWs

/-- Rust `str::rsplit_once(sep)`: split at the LAST occurrence of `sep`,
returning the (prefix, suffix) around it, or `none` when `sep` is absent. -/
def rsplitOnce (sep : Char) : List Char → Option (List Char × List Char)
  | [] => none
  | c :: cs =>
    match rsplitOnce sep cs with
    | some (l, r) => some (c :: l, r)
    | none => if c = sep then some ([], cs) else none

/-- Rust `str::parse::<usize>()`: an optional leading `+` followed by at
least one ASCII digit, with a 64-bit overflow check; anything else fails. -/
def parseUsize (cs : List Char) : Option Nat :=
  let ds := match cs with
    | c :: rest => if c = '+' then rest else c :: rest
    | [] => []
  if ds = [] then none
  else if ds.all isAsciiDigit then
    let v := ds.foldl (fun acc c => acc * 10 + (c.toNat - 48)) 0
    if v < 2 ^ 64 then some v else none
  else none

/-- Rust `str::split(pred)` over a char list: the segments between
separator characters, keeping empty segments (as Rust's `split` does). -/
def splitOnPred (p : Char → Bool) : List Char → List Char → List (List Char)
  | [], acc => [acc.reverse]
  | c :: cs, acc =>
    if p c then acc.reverse :: splitOnPred p cs []
    else splitOnPred p cs (c :: acc)

/-- The `BibleBook` enum of `bible_books_enum.rs`: 83 canonical book
identities in declaration order (66 Protestant, 11 Catholic deuterocanon,
6 Eastern Orthodox additions). -/
inductive BibleBook where
  | Genesis | Exodus | Leviticus | Numbers | Deuteronomy
  | Joshua | Judges | Ruth | FirstSamuel | SecondSamuel
  | FirstKings | SecondKings | FirstChronicles | SecondChronicles | Ezra
  | Nehemiah | Esther | Job | Psalms | Proverbs
  | Ecclesiastes | SongOfSolomon | Isaiah | Jeremiah | Lamentations
  | Ezekiel | Daniel | Hosea | Joel | Amos
  | Obadiah | Jonah | Micah | Nahum | Habakkuk
  | Zephaniah | Haggai | Zechariah | Malachi | Matthew
  | Mark | Luke | John | Acts | Romans
  | FirstCorinthians | SecondCorinthians | Galatians | Ephesians | Philippians
  | Colossians | FirstThessalonians | SecondThessalonians | FirstTimothy | SecondTimothy
  | Titus | Philemon | Hebrews | James | FirstPeter
  | SecondPeter | FirstJohn | SecondJohn | ThirdJohn | Jude
  | Revelation
  | Tobit | Judith | Wisdom | Sirach | Baruch
  | FirstMaccabees | SecondMaccabees | EstherAdditions | DanielSongOfThree | DanielSusanna
  | DanielBelAndTheDragon
  | FirstEsdras | SecondEsdras | PrayerOfManasseh | Psalm151 | ThirdMaccabees
  | FourthMaccabees
deriving DecidableEq, Repr

namespace BibleBook

/-- `BibleBook::as_str`: the compact canonical abbreviation of each book. -/
def as_str : BibleBook → String
  | .Genesis => "gn"
  | .Exodus => "ex"
  | .Leviticus => "lv"
  | .Numbers => "nm"
  | .Deuteronomy => "dt"
  | .Joshua => "js"
  | .Judges => "jud"
  | .Ruth => "rt"
  | .FirstSamuel => "1sm"
  | .SecondSamuel => "2sm"
  | .FirstKings => "1kgs"
  | .SecondKings => "2kgs"
  | .FirstChronicles => "1ch"
  | .SecondChronicles => "2ch"
  | .Ezra => "ezr"
  | .Nehemiah => "ne"
  | .Esther => "et"
  | .Job => "job"
  | .Psalms => "ps"
  | .Proverbs => "prv"
  | .Ecclesiastes => "ec"
  | .SongOfSolomon => "so"
  | .Isaiah => "is"
  | .Jeremiah => "jr"
  | .Lamentations => "lm"
  | .Ezekiel => "ez"
  | .Daniel => "dn"
  | .Hosea => "ho"
  | .Joel => "jl"
  | .Amos => "am"
  | .Obadiah => "ob"
  | .Jonah => "jn"
  | .Micah => "mi"
  | .Nahum => "na"
  | .Habakkuk => "hk"
  | .Zephaniah => "zp"
  | .Haggai => "hg"
  | .Zechariah => "zc"
  | .Malachi => "ml"
  | .Matthew => "mt"
  | .Mark => "mk"
  | .Luke => "lk"
  | .John => "jo"
  | .Acts => "act"
  | .Romans => "rm"
  | .FirstCorinthians => "1co"
  | .SecondCorinthians => "2co"
  | .Galatians => "gl"
  | .Ephesians => "eph"
  | .Philippians => "ph"
  | .Colossians => "cl"
  | .FirstThessalonians => "1ts"
  | .SecondThessalonians => "2ts"
  | .FirstTimothy => "1tm"
  | .SecondTimothy => "2tm"
  | .Titus => "tt"
  | .Philemon => "phm"
  | .Hebrews => "hb"
  | .James => "jm"
  | .FirstPeter => "1pe"
  | .SecondPeter => "2pe"
  | .FirstJohn => "1jo"
  | .SecondJohn => "2jo"
  | .ThirdJohn => "3jo"
  | .Jude => "jd"
  | .Revelation => "re"
  | .Tobit => "tb"
  | .Judith => "jdt"
  | .Wisdom => "ws"
  | .Sirach => "sir"
  | .Baruch => "bar"
  | .FirstMaccabees => "1mc"
  | .SecondMaccabees => "2mc"
  | .EstherAdditions => "etg"
  | .DanielSongOfThree => "dn3"
  | .DanielSusanna => "dns"
  | .DanielBelAndTheDragon => "dnb"
  | .FirstEsdras => "1es"
  | .SecondEsdras => "2es"
  | .PrayerOfManasseh => "pmn"
  | .Psalm151 => "ps151"
  | .ThirdMaccabees => "3mc"
  | .FourthMaccabees => "4mc"

/-- Matching step of `BibleBook::from_str`, applied to the already
lowercased string (the `match s { ... }` block of the source). -/
def matchCode (s : String) : Option BibleBook :=
  match s with
  | "gn" => some .Genesis
  | "ex" => some .Exodus
  | "lv" => some .Leviticus
  | "nm" => some .Numbers
  | "dt" => some .Deuteronomy
  | "js" => some .Joshua
  | "jud" => some .Judges
  | "rt" => some .Ruth
  | "1sm" => some .FirstSamuel
  | "2sm" => some .SecondSamuel
  | "1kgs" => some .FirstKings
  | "2kgs" => some .SecondKings
  | "1ch" => some .FirstChronicles
  | "2ch" => some .SecondChronicles
  | "ezr" => some .Ezra
  | "ne" => some .Nehemiah
  | "et" => some .Esther
  | "job" => some .Job
  | "ps" => some .Psalms
  | "prv" => some .Proverbs
  | "ec" => some .Ecclesiastes
  | "so" => some .SongOfSolomon
  | "is" => some .Isaiah
  | "jr" => some .Jeremiah
  | "lm" => some .Lamentations
  | "ez" => some .Ezekiel
  | "dn" => some .Daniel
  | "ho" => some .Hosea
  | "jl" => some .Joel
  | "am" => some .Amos
  | "ob" => some .Obadiah
  | "jn" => some .Jonah
  | "mi" => some .Micah
  | "na" => some .Nahum
  | "hk" => some .Habakkuk
  | "zp" => some .Zephaniah
  | "hg" => some .Haggai
  | "zc" => some .Zechariah
  | "ml" => some .Malachi
  | "mt" => some .Matthew
  | "mk" => some .Mark
  | "lk" => some .Luke
  | "jo" => some .John
  | "act" => some .Acts
  | "rm" => some .Romans
  | "1co" => some .FirstCorinthians
  | "2co" => some .SecondCorinthians
  | "gl" => some .Galatians
  | "eph" => some .Ephesians
  | "ph" => some .Philippians
  | "cl" => some .Colossians
  | "1ts" => some .FirstThessalonians
  | "2ts" => some .SecondThessalonians
  | "1tm" => some .FirstTimothy
  | "2tm" => some .SecondTimothy
  | "tt" => some .Titus
  | "phm" => some .Philemon
  | "hb" => some .Hebrews
  | "jm" => some .James
  | "1pe" => some .FirstPeter
  | "2pe" => some .SecondPeter
  | "1jo" => some .FirstJohn
  | "2jo" => some .SecondJohn
  | "3jo" => some .ThirdJohn
  | "jd" => some .Jude
  | "re" => some .Revelation
  | "tb" => some .Tobit
  | "jdt" => some .Judith
  | "ws" => some .Wisdom
  | "sir" => some .Sirach
  | "bar" => some .Baruch
  | "1mc" => some .FirstMaccabees
  | "2mc" => some .SecondMaccabees
  | "etg" => some .EstherAdditions
  | "dn3" => some .DanielSongOfThree
  | "dns" => some .DanielSusanna
  | "dnb" => some .DanielBelAndTheDragon
  | "1es" => some .FirstEsdras
  | "2es" => some .SecondEsdras
  | "pmn" => some .PrayerOfManasseh
  | "ps151" => some .Psalm151
  | "3mc" => some .ThirdMaccabees
  | "4mc" => some .FourthMaccabees
  | _ => none

/-- `BibleBook::from_str` (the `FromStr` impl): lowercase the input, then
match it against the canonical codes; `none` models `Err(ParseBibleBookError)`. -/
def from_str (s : String) : Option BibleBook :=
  matchCode (toAsciiLowercase s)

/-- Rust `BibleBook as usize`: the declaration-order discriminant, used as
the leading component of the search index sort key. -/
def ordinal : BibleBook → Nat
  | .Genesis => 0
  | .Exodus => 1
  | .Leviticus => 2
  | .Numbers => 3
  | .Deuteronomy => 4
  | .Joshua => 5
  | .Judges => 6
  | .Ruth => 7
  | .FirstSamuel => 8
  | .SecondSamuel => 9
  | .FirstKings => 10
  | .SecondKings => 11
  | .FirstChronicles => 12
  | .SecondChronicles => 13
  | .Ezra => 14
  | .Nehemiah => 15
  | .Esther => 16
  | .Job => 17
  | .Psalms => 18
  | .Proverbs => 19
  | .Ecclesiastes => 20
  | .SongOfSolomon => 21
  | .Isaiah => 22
  | .Jeremiah => 23
  | .Lamentations => 24
  | .Ezekiel => 25
  | .Daniel => 26
  | .Hosea => 27
  | .Joel => 28
  | .Amos => 29
  | .Obadiah => 30
  | .Jonah => 31
  | .Micah => 32
  | .Nahum => 33
  | .Habakkuk => 34
  | .Zephaniah => 35
  | .Haggai => 36
  | .Zechariah => 37
  | .Malachi => 38
  | .Matthew => 39
  | .Mark => 40
  | .Luke => 41
  | .John => 42
  | .Acts => 43
  | .Romans => 44
  | .FirstCorinthians => 45
  | .SecondCorinthians => 46
  | .Galatians => 47
  | .Ephesians => 48
  | .Philippians => 49
  | .Colossians => 50
  | .FirstThessalonians => 51
  | .SecondThessalonians => 52
  | .FirstTimothy => 53
  | .SecondTimothy => 54
  | .Titus => 55
  | .Philemon => 56
  | .Hebrews => 57
  | .James => 58
  | .FirstPeter => 59
  | .SecondPeter => 60
  | .FirstJohn => 61
  | .SecondJohn => 62
  | .ThirdJohn => 63
  | .Jude => 64
  | .Revelation => 65
  | .Tobit => 66
  | .Judith => 67
  | .Wisdom => 68
  | .Sirach => 69
  | .Baruch => 70
  | .FirstMaccabees => 71
  | .SecondMaccabees => 72
  | .EstherAdditions => 73
  | .DanielSongOfThree => 74
  | .DanielSusanna => 75
  | .DanielBelAndTheDragon => 76
  | .FirstEsdras => 77
  | .SecondEsdras => 78
  | .PrayerOfManasseh => 79
  | .Psalm151 => 80
  | .ThirdMaccabees => 81
  | .FourthMaccabees => 82

set_option maxHeartbeats 1000000 in
/-- Every book variant, in declaration order. -/
def all : List BibleBook :=
  [.Genesis, .Exodus, .Leviticus, .Numbers, .Deuteronomy,
   .Joshua, .Judges, .Ruth, .FirstSamuel, .SecondSamuel,
   .FirstKings, .SecondKings, .FirstChronicles, .SecondChronicles, .Ezra,
   .Nehemiah, .Esther, .Job, .Psalms, .Proverbs,
   .Ecclesiastes, .SongOfSolomon, .Isaiah, .Jeremiah, .Lamentations,
   .Ezekiel, .Daniel, .Hosea, .Joel, .Amos,
   .Obadiah, .Jonah, .Micah, .Nahum, .Habakkuk,
   .Zephaniah, .Haggai, .Zechariah, .Malachi, .Matthew,
   .Mark, .Luke, .John, .Acts, .Romans,
   .FirstCorinthians, .SecondCorinthians, .Galatians, .Ephesians, .Philippians,
   .Colossians, .FirstThessalonians, .SecondThessalonians, .FirstTimothy, .SecondTimothy,
   .Titus, .Philemon, .Hebrews, .James, .FirstPeter,
   .SecondPeter, .FirstJohn, .SecondJohn, .ThirdJohn, .Jude,
   .Revelation,
   .Tobit, .Judith, .Wisdom, .Sirach, .Baruch,
   .FirstMaccabees, .SecondMaccabees, .EstherAdditions, .DanielSongOfThree, .DanielSusanna,
   .DanielBelAndTheDragon,
   .FirstEsdras, .SecondEsdras, .PrayerOfManasseh, .Psalm151, .ThirdMaccabees,
   .FourthMaccabees]

/-- Modelled from the spec: `BibleBook::full_name` is called by
`Bible::get_book_by_abbrev` but its definition is not under `src/`; the
spec describes it as the fixed display full name of each identity, with
disambiguating parentheticals for compound deuterocanonical titles
(examples given: "1 Samuel", "Daniel (Susanna)", "Daniel (Bel and the
Dragon)"), and the repository's `full_name_tests.rs` pins every value. -/
def full_name : BibleBook → String
  | .Genesis => "Genesis"
  | .Exodus => "Exodus"
  | .Leviticus => "Leviticus"
  | .Numbers => "Numbers"
  | .Deuteronomy => "Deuteronomy"
  | .Joshua => "Joshua"
  | .Judges => "Judges"
  | .Ruth => "Ruth"
  | .FirstSamuel => "1 Samuel"
  | .SecondSamuel => "2 Samuel"
  | .FirstKings => "1 Kings"
  | .SecondKings => "2 Kings"
  | .FirstChronicles => "1 Chronicles"
  | .SecondChronicles => "2 Chronicles"
  | .Ezra => "Ezra"
  | .Nehemiah => "Nehemiah"
  | .Esther => "Esther"
  | .Job => "Job"
  | .Psalms => "Psalms"
  | .Proverbs => "Proverbs"
  | .Ecclesiastes => "Ecclesiastes"
  | .SongOfSolomon => "Song of Solomon"
  | .Isaiah => "Isaiah"
  | .Jeremiah => "Jeremiah"
  | .Lamentations => "Lamentations"
  | .Ezekiel => "Ezekiel"
  | .Daniel => "Daniel"
  | .Hosea => "Hosea"
  | .Joel => "Joel"
  | .Amos => "Amos"
  | .Obadiah => "Obadiah"
  | .Jonah => "Jonah"
  | .Micah => "Micah"
  | .Nahum => "Nahum"
  | .Habakkuk => "Habakkuk"
  | .Zephaniah => "Zephaniah"
  | .Haggai => "Haggai"
  | .Zechariah => "Zechariah"
  | .Malachi => "Malachi"
  | .Matthew => "Matthew"
  | .Mark => "Mark"
  | .Luke => "Luke"
  | .John => "John"
  | .Acts => "Acts"
  | .Romans => "Romans"
  | .FirstCorinthians => "1 Corinthians"
  | .SecondCorinthians => "2 Corinthians"
  | .Galatians => "Galatians"
  | .Ephesians => "Ephesians"
  | .Philippians => "Philippians"
  | .Colossians => "Colossians"
  | .FirstThessalonians => "1 Thessalonians"
  | .SecondThessalonians => "2 Thessalonians"
  | .FirstTimothy => "1 Timothy"
  | .SecondTimothy => "2 Timothy"
  | .Titus => "Titus"
  | .Philemon => "Philemon"
  | .Hebrews => "Hebrews"
  | .James => "James"
  | .FirstPeter => "1 Peter"
  | .SecondPeter => "2 Peter"
  | .FirstJohn => "1 John"
  | .SecondJohn => "2 John"
  | .ThirdJohn => "3 John"
  | .Jude => "Jude"
  | .Revelation => "Revelation"
  | .Tobit => "Tobit"
  | .Judith => "Judith"
  | .Wisdom => "Wisdom"
  | .Sirach => "Sirach"
  | .Baruch => "Baruch"
  | .FirstMaccabees => "1 Maccabees"
  | .SecondMaccabees => "2 Maccabees"
  | .EstherAdditions => "Esther (Greek)"
  | .DanielSongOfThree => "Daniel (Song of Three)"
  | .DanielSusanna => "Daniel (Susanna)"
  | .DanielBelAndTheDragon => "Daniel (Bel and the Dragon)"
  | .FirstEsdras => "1 Esdras"
  | .SecondEsdras => "2 Esdras"
  | .PrayerOfManasseh => "Prayer of Manasseh"
  | .Psalm151 => "Psalm 151"
  | .ThirdMaccabees => "3 Maccabees"
  | .FourthMaccabees => "4 Maccabees"

end BibleBook

/-- Sanity: the code parse is case-insensitive and rejects unknowns. -/
theorem sanity_from_str :
    BibleBook.from_str "GN" = some .Genesis ∧
    BibleBook.from_str "xyz" = none ∧ BibleBook.all.length = 83 := by
  refine ⟨by decide, by decide, by decide⟩

/-- A verse location in the search index: `(BibleBook, usize, usize)`. -/
abbrev Loc := BibleBook × Nat × Nat

/-- `sanitize_verse_text` of `verse.rs`: drop every curly brace character. -/
def sanitize_verse_text (verse_text : String) : String :=
  String.mk (verse_text.data.filter
    (fun c => !(c = lbraceChar) && !(c = rbraceChar)))

/-- The `Verse` struct of `verse.rs`. -/
structure Verse where
  book : BibleBook
  chapter_number : Nat
  verse_text : String
  verse_number : Nat
deriving DecidableEq, Repr

namespace Verse

/-- `Verse::new`: stores the text after `sanitize_verse_text`. -/
def new (book : BibleBook) (chapter_number verse_number : Nat)
    (verse_text : String) : Verse :=
  { book, chapter_number, verse_text := sanitize_verse_text verse_text,
    verse_number }

/-- `Verse::text`. -/
def text (v : Verse) : String := v.verse_text

/-- `Verse::number`. -/
def number (v : Verse) : Nat := v.verse_number

/-- The `Display` impl for `Verse`: `"<verseNumber>: <verseText>"`. -/
def display (v : Verse) : String :=
  toString v.verse_number ++ ": " ++ v.verse_text

end Verse

/-- The `Chapter` struct of `chapter.rs`. -/
structure Chapter where
  verses : List Verse
  chapter_number : Nat
deriving DecidableEq, Repr

namespace Chapter

/-- `Chapter::new`. -/
def new (verses : List Verse) (chapter_number : Nat) : Chapter :=
  { verses, chapter_number }

/-- `Chapter::get_verses`. -/
def get_verses (c : Chapter) : List Verse := c.verses

/-- `Chapter::get_verse` of `chapter.rs`: positional access at index
`verse_number - 1`, rejecting `verse_number == 0`. -/
def get_verse (c : Chapter) (verse_number : Nat) : Option Verse :=
  if verse_number = 0 then none
  else c.verses[verse_number - 1]?

end Chapter

/-- The `BibleError` enum of `bible.rs` (its only three variants). -/
inductive BibleError where
  | BookNotFound (book_abbrev book_name translation : String)
  | ChapterOutOfBounds (book_abbrev book_name : String)
      (chapter max_chapter : Nat)
  | VerseOutOfBounds (book_abbrev book_name : String)
      (chapter verse max_verse : Nat)
deriving DecidableEq, Repr

/-- The `Book` struct of `book.rs`; the field `abbr` models the Rust
field `abbrev` (a Lean keyword). -/
structure Book where
  abbr : String
  title : String
  chapters : List Chapter
deriving DecidableEq, Repr

namespace Book

/-- `Book::new` of `book.rs`: lowercases the abbreviation. -/
def new (abbr title : String) (chapters : List Chapter) : Book :=
  { abbr := toAsciiLowercase abbr, title, chapters }

/-- `Book::get_chapter` of `book.rs`: positional access at
`chapter_number - 1`, with `chapter_number == 0` and out-of-range both
producing `ChapterOutOfBounds` carrying the chapter count. -/
def get_chapter (b : Book) (chapter_number : Nat) :
    Except BibleError Chapter :=
  if chapter_number = 0 then
    .error (.ChapterOutOfBounds b.abbr b.title chapter_number
      b.chapters.length)
  else
    match b.chapters[chapter_number - 1]? with
    | some c => .ok c
    | none => .error (.ChapterOutOfBounds b.abbr b.title chapter_number
        b.chapters.length)

/-- `Book::get_verses`. -/
def get_verses (b : Book) (chapter_number : Nat) :
    Except BibleError (List Verse) :=
  (b.get_chapter chapter_number).map Chapter.get_verses

/-- `Book::get_verse`: chapter first (propagating its error), then
`Chapter::get_verse`, with a miss producing `VerseOutOfBounds` carrying
the chapter's verse count. -/
def get_verse (b : Book) (chapter_number verse_number : Nat) :
    Except BibleError Verse :=
  match b.get_chapter chapter_number with
  | .error e => .error e
  | .ok chapter =>
    match chapter.get_verse verse_number with
    | some v => .ok v
    | none => .error (.VerseOutOfBounds b.abbr b.title chapter_number
        verse_number chapter.get_verses.length)

end Book

namespace SearchIndexDefs

/-- `SearchIndex::tokenize`: split on any non-ASCII-alphanumeric char,
discard empty segments, lowercase each term. -/
def tokenize (text : String) : List String :=
  (((splitOnPred (fun c => !isAsciiAlphanumeric c) text.data []).filter
    (fun s => !(s = []))).map (fun s => String.mk (lowerAsciiList s)))

end SearchIndexDefs

/-- The `SearchIndex` struct of `search_index.rs`: its `HashMap` is
modelled as an association list whose keys are kept unique by the
entry-API insertion used to build it. -/
structure SearchIndex where
  index : List (String × List Loc)
deriving DecidableEq, Repr

/-- Lexicographic comparison of the Rust sort key
`(book as usize, chapter, verse)` (the derived tuple `Ord`). -/
def locKeyLe (a b : Loc) : Bool :=
  (a.1.ordinal < b.1.ordinal) ||
  (a.1.ordinal = b.1.ordinal &&
    (a.2.1 < b.2.1 || (a.2.1 = b.2.1 && a.2.2 ≤ b.2.2)))

/-- Strict version of `locKeyLe`, for stating sortedness with no dups. -/
def locKeyLt (a b : Loc) : Prop :=
  a.1.ordinal < b.1.ordinal ∨
  (a.1.ordinal = b.1.ordinal ∧
    (a.2.1 < b.2.1 ∨ (a.2.1 = b.2.1 ∧ a.2.2 < b.2.2)))

/-- Rust `Vec::sort_by_key` on the `(book as usize, chapter, verse)` key.
Rust specifies a STABLE sort, and a stable sort's output is the unique
sorted permutation preserving the relative order of key-equal elements,
so any stable algorithm models it; a structural insertion sort (stable)
is used so that the result is computable by evaluation. -/
def sortLocs (locs : List Loc) : List Loc :=
  locs.insertionSort (fun a b => locKeyLe a b = true)

/-- Rust `Vec::dedup`: remove consecutive repeated elements. -/
def dedupAdj : List Loc → List Loc
  | [] => []
  | [a] => [a]
  | a :: b :: rest =>
    if a = b then dedupAdj (b :: rest) else a :: dedupAdj (b :: rest)

namespace SearchIndex

/-- `SearchIndex::new`. -/
def new (index : List (String × List Loc)) : SearchIndex := ⟨index⟩

/-- The `HashMap::get` of the index, on the association-list model. -/
def get (si : SearchIndex) (term : String) : Option (List Loc) :=
  (si.index.find? (fun p => p.1 = term)).map (fun p => p.2)

/-- The retain loop of `SearchIndex::search`: for each remaining term,
keep only candidates present in that term's posting list; a missing term
aborts with `none` (the source's early `return Vec::new()`). -/
def retainLoop (si : SearchIndex) : List String → List Loc →
    Option (List Loc)
  | [], results => some results
  | term :: rest, results =>
    match si.get term with
    | some list => retainLoop si rest
        (results.filter (fun item => list.contains item))
    | none => none

/-- `SearchIndex::search` of `search_index.rs`. -/
def search (si : SearchIndex) (query : String) : List Loc :=
  match SearchIndexDefs.tokenize query with
  | [] => []
  | first :: rest =>
    match si.get first with
    | none => []
    | some v =>
      match retainLoop si rest v with
      | none => []
      | some results => dedupAdj (sortLocs results)

end SearchIndex

/-- Sanity: tokenization splits on non-alphanumerics, drops empties and
lowercases; sanitization strips braces. -/
theorem sanity_tokenize :
    SearchIndexDefs.tokenize "In \x7bthe\x7d  Beginning!" =
      ["in", "the", "beginning"] ∧
    sanitize_verse_text "In \x7bthe\x7d beginning" = "In the beginning" := by
  refine ⟨by decide, by decide⟩

/-- The `Bible` struct of `bible.rs`.  `index_by_abbrev` (a `HashMap`
queried only through `get`) is modelled as an association list, and the
lazily built `search_index` as an `Option`. -/
structure Bible where
  books : List Book
  index_by_abbrev : List (String × Nat)
  search_index : Option SearchIndex
  id : String
  name : String
  description : String
  language : String
deriving DecidableEq, Repr

/-- Entries 0-19 of the `ALT_ABBREVS` table of `Bible::resolve_book`,
in declaration order (split into chunks only to keep elaboration fast). -/
def altAbbrevsChunk0 : List (String × BibleBook) :=
  [("gen", .Genesis),
   ("ge", .Genesis),
   ("exo", .Exodus),
   ("exod", .Exodus),
   ("lev", .Leviticus),
   ("le", .Leviticus),
   ("num", .Numbers),
   ("nu", .Numbers),
   ("deut", .Deuteronomy),
   ("deu", .Deuteronomy),
   ("jos", .Joshua),
   ("josh", .Joshua),
   ("jdg", .Judges),
   ("judg", .Judges),
   ("rut", .Ruth),
   ("ru", .Ruth),
   ("1sa", .FirstSamuel),
   ("1sam", .FirstSamuel),
   ("2sa", .SecondSamuel),
   ("2sam", .SecondSamuel)]

/-- Entries 20-39 of the `ALT_ABBREVS` table of `Bible::resolve_book`,
in declaration order (split into chunks only to keep elaboration fast). -/
def altAbbrevsChunk1 : List (String × BibleBook) :=
  [("1ki", .FirstKings),
   ("1kings", .FirstKings),
   ("2ki", .SecondKings),
   ("2kings", .SecondKings),
   ("1ch", .FirstChronicles),
   ("1chr", .FirstChronicles),
   ("2ch", .SecondChronicles),
   ("2chr", .SecondChronicles),
   ("ezr", .Ezra),
   ("ezra", .Ezra),
   ("neh", .Nehemiah),
   ("ne", .Nehemiah),
   ("est", .Esther),
   ("esth", .Esther),
   ("job", .Job),
   ("jb", .Job),
   ("psa", .Psalms),
   ("psalm", .Psalms),
   ("psalms", .Psalms),
   ("pro", .Proverbs)]

/-- Entries 40-59 of the `ALT_ABBREVS` table of `Bible::resolve_book`,
in declaration order (split into chunks only to keep elaboration fast). -/
def altAbbrevsChunk2 : List (String × BibleBook) :=
  [("prov", .Proverbs),
   ("ecc", .Ecclesiastes),
   ("eccl", .Ecclesiastes),
   ("sos", .SongOfSolomon),
   ("song", .SongOfSolomon),
   ("songofsongs", .SongOfSolomon),
   ("isa", .Isaiah),
   ("jer", .Jeremiah),
   ("lam", .Lamentations),
   ("ezek", .Ezekiel),
   ("eze", .Ezekiel),
   ("dan", .Daniel),
   ("da", .Daniel),
   ("hos", .Hosea),
   ("joe", .Joel),
   ("amo", .Amos),
   ("oba", .Obadiah),
   ("obad", .Obadiah),
   ("jon", .Jonah),
   ("jnh", .Jonah)]

/-- Entries 60-79 of the `ALT_ABBREVS` table of `Bible::resolve_book`,
in declaration order (split into chunks only to keep elaboration fast). -/
def altAbbrevsChunk3 : List (String × BibleBook) :=
  [("mic", .Micah),
   ("nah", .Nahum),
   ("hab", .Habakkuk),
   ("zep", .Zephaniah),
   ("zeph", .Zephaniah),
   ("hag", .Haggai),
   ("zec", .Zechariah),
   ("zech", .Zechariah),
   ("mal", .Malachi),
   ("mat", .Matthew),
   ("matt", .Matthew),
   ("mar", .Mark),
   ("mrk", .Mark),
   ("luk", .Luke),
   ("luke", .Luke),
   ("john", .John),
   ("jhn", .John),
   ("jn", .John),
   ("acts", .Acts),
   ("ac", .Acts)]

/-- Entries 80-99 of the `ALT_ABBREVS` table of `Bible::resolve_book`,
in declaration order (split into chunks only to keep elaboration fast). -/
def altAbbrevsChunk4 : List (String × BibleBook) :=
  [("rom", .Romans),
   ("1co", .FirstCorinthians),
   ("1cor", .FirstCorinthians),
   ("2co", .SecondCorinthians),
   ("2cor", .SecondCorinthians),
   ("gal", .Galatians),
   ("eph", .Ephesians),
   ("phil", .Philippians),
   ("php", .Philippians),
   ("col", .Colossians),
   ("1th", .FirstThessalonians),
   ("1thes", .FirstThessalonians),
   ("2th", .SecondThessalonians),
   ("2thes", .SecondThessalonians),
   ("1ti", .FirstTimothy),
   ("1tim", .FirstTimothy),
   ("2ti", .SecondTimothy),
   ("2tim", .SecondTimothy),
   ("tit", .Titus),
   ("phm", .Philemon)]

/-- Entries 100-119 of the `ALT_ABBREVS` table of `Bible::resolve_book`,
in declaration order (split into chunks only to keep elaboration fast). -/
def altAbbrevsChunk5 : List (String × BibleBook) :=
  [("phlm", .Philemon),
   ("philemon", .Philemon),
   ("heb", .Hebrews),
   ("jas", .James),
   ("jam", .James),
   ("1pe", .FirstPeter),
   ("1pet", .FirstPeter),
   ("2pe", .SecondPeter),
   ("2pet", .SecondPeter),
   ("1jn", .FirstJohn),
   ("1joh", .FirstJohn),
   ("2jn", .SecondJohn),
   ("2joh", .SecondJohn),
   ("3jn", .ThirdJohn),
   ("3joh", .ThirdJohn),
   ("jud", .Jude),
   ("jude", .Jude),
   ("rev", .Revelation),
   ("revelation", .Revelation),
   ("tob", .Tobit)]

/-- Entries 120-137 of the `ALT_ABBREVS` table of `Bible::resolve_book`,
in declaration order (split into chunks only to keep elaboration fast). -/
def altAbbrevsChunk6 : List (String × BibleBook) :=
  [("jdt", .Judith),
   ("wis", .Wisdom),
   ("sir", .Sirach),
   ("bar", .Baruch),
   ("1mac", .FirstMaccabees),
   ("2mac", .SecondMaccabees),
   ("estg", .EstherAdditions),
   ("addesth", .EstherAdditions),
   ("dan3", .DanielSongOfThree),
   ("sus", .DanielSusanna),
   ("bel", .DanielBelAndTheDragon),
   ("1esd", .FirstEsdras),
   ("2esd", .SecondEsdras),
   ("man", .PrayerOfManasseh),
   ("prman", .PrayerOfManasseh),
   ("ps151", .Psalm151),
   ("3mac", .ThirdMaccabees),
   ("4mac", .FourthMaccabees)]

/-- The full `ALT_ABBREVS` table of `Bible::resolve_book`: the chunks
concatenated in declaration order (first-match wins). -/
def ALT_ABBREVS : List (String × BibleBook) :=
  altAbbrevsChunk0 ++ altAbbrevsChunk1 ++ altAbbrevsChunk2 ++ altAbbrevsChunk3 ++ altAbbrevsChunk4 ++ altAbbrevsChunk5 ++ altAbbrevsChunk6

namespace Bible

/-- `Bible::get_book_by_abbrev`: lowercase the key, look it up in
`index_by_abbrev`, then index into `books`; on a miss, build a
`BookNotFound` whose display name comes from `BibleBook::from_str` when
the key parses. -/
def get_book_by_abbrev (bible : Bible) (abbr : String) :
    Except BibleError Book :=
  let key := toAsciiLowercase abbr
  match (bible.index_by_abbrev.lookup key).bind
      (fun i => bible.books[i]?) with
  | some b => .ok b
  | none =>
    let book_name := match BibleBook.from_str key with
      | some b => b.full_name
      | none => key
    .error (.BookNotFound key book_name bible.name)

/-- `Bible::get_book`. -/
def get_book (bible : Bible) (book : BibleBook) : Except BibleError Book :=
  bible.get_book_by_abbrev book.as_str

/-- `Bible::get_verses`. -/
def get_verses (bible : Bible) (book : BibleBook) (chapter_number : Nat) :
    Except BibleError (List Verse) :=
  match bible.get_book book with
  | .error e => .error e
  | .ok b => b.get_verses chapter_number

/-- `Bible::get_verse`. -/
def get_verse (bible : Bible) (book : BibleBook)
    (chapter_number verse_number : Nat) : Except BibleError Verse :=
  match bible.get_book book with
  | .error e => .error e
  | .ok b => b.get_verse chapter_number verse_number

/-- `Bible::parse_error`: reference-parse failures are reported as
`BookNotFound` carrying the offending substring (lowercased in
`book_abbrev`, verbatim in `book_name`) and the translation name. -/
def parse_error (bible : Bible) (part : String) : BibleError :=
  .BookNotFound (toAsciiLowercase part) part bible.name

/-- `Bible::resolve_book`: first-match scan of `ALT_ABBREVS` on the
lowercased input, else the canonical-code parse, else a scan of the
loaded books for a case-insensitive full-title match whose abbrev parses
to a canonical identity. -/
def resolve_book (bible : Bible) (input : String) : Option BibleBook :=
  let lower := toAsciiLowercase input
  match ALT_ABBREVS.find? (fun p => p.1 = lower) with
  | some p => some p.2
  | none =>
    match BibleBook.from_str lower with
    | some b => some b
    | none =>
      match bible.books.find? (fun b => eqIgnoreAsciiCase b.title input) with
      | some b => BibleBook.from_str (toAsciiLowercase b.abbr)
      | none => none

/-- `Bible::get_verse_by_reference`: trim, split the verse number off at
the last `:`, split the chapter off at the last space, resolve the book
token, then delegate to `get_verse`. -/
def get_verse_by_reference (bible : Bible) (reference : String) :
    Except BibleError Verse :=
  let ref := trimChars reference.data
  match rsplitOnce ':' ref with
  | none => .error (bible.parse_error (String.mk ref))
  | some (book_and_chapter, verse_str) =>
    match parseUsize (trimChars verse_str) with
    | none => .error (bible.parse_error (String.mk ref))
    | some verse_number =>
      match rsplitOnce ' ' book_and_chapter with
      | none => .error (bible.parse_error (String.mk book_and_chapter))
      | some (book_str, chapter_str) =>
        match parseUsize (trimChars chapter_str) with
        | none => .error (bible.parse_error (String.mk book_and_chapter))
        | some chapter_number =>
          match bible.resolve_book (String.mk (trimChars book_str)) with
          | none => .error (bible.parse_error (String.mk book_str))
          | some book =>
            bible.get_verse book chapter_number verse_number

/-- One step of the `HashMap` entry-API insertion in
`Bible::build_search_index`: `map.entry(term).or_insert_with(Vec::new)`,
then `push` the location only when not already present. -/
def insertPosting (m : List (String × List Loc)) (term : String)
    (loc : Loc) : List (String × List Loc) :=
  match m with
  | [] => [(term, [loc])]
  | (t, locs) :: rest =>
    if t = term then
      (t, if locs.contains loc then locs else locs ++ [loc]) :: rest
    else
      (t, locs) :: insertPosting rest term loc

/-- The scan order of `Bible::build_search_index`: for each book whose
abbrev parses to a `BibleBook`, for each chapter (by position, numbered
`chapter_idx + 1`), for each verse, for each token of the verse text, one
`(term, (book, chapter, verse.number))` pair. -/
def scanPairs (bible : Bible) : List (String × Loc) :=
  bible.books.flatMap fun book =>
    match BibleBook.from_str book.abbr with
    | none => []
    | some book_enum =>
      book.chapters.enum.flatMap fun ci =>
        ci.2.get_verses.flatMap fun verse =>
          (SearchIndexDefs.tokenize verse.text).map fun term =>
            (term, (book_enum, ci.1 + 1, verse.number))

/-- `Bible::build_search_index`: fold the scanned pairs through the
entry-API insertion, then sort every posting list by
`(book as usize, chapter, verse)`. -/
def build_search_index (bible : Bible) : SearchIndex :=
  let m := (bible.scanPairs).foldl
    (fun m p => insertPosting m p.1 p.2) []
  SearchIndex.new (m.map (fun p => (p.1, sortLocs p.2)))

/-- `Bible::search` (which takes `&mut self`): returns the result list
together with the post-call state of the `Bible`. -/
def search (bible : Bible) (query : String) : List Loc × Bible :=
  if query = "" then ([], bible)
  else
    match bible.search_index with
    | some idx => (idx.search query, bible)
    | none =>
      let idx := bible.build_search_index
      (idx.search query, { bible with search_index := some idx })

end Bible

/-- Spec-side companion for the amended C1: verse lookup is positional —
given the resolved chapter, verse number `v` succeeds exactly when
`1 ≤ v ≤ verse count`, returning the verse stored at position `v - 1`,
and fails with `VerseOutOfBounds` carrying the verse count otherwise. -/
def getVersePositional (b : Book) (chapter_number verse_number : Nat) :
    Except BibleError Verse :=
  match b.get_chapter chapter_number with
  | .error e => .error e
  | .ok chapter =>
    if h : 1 ≤ verse_number ∧ verse_number ≤ chapter.verses.length then
      .ok (chapter.verses.get ⟨verse_number - 1, by omega⟩)
    else
      .error (.VerseOutOfBounds b.abbr b.title chapter_number verse_number
        chapter.verses.length)

/-- Proof device: a left inverse of `BibleBook.ordinal`, used to derive
that distinct variants have distinct ordinals. -/
def ofOrdinal (n : Nat) : Option BibleBook :=
  BibleBook.all[n]?

/-- Shared witness corpus: Genesis 1:1 text (with braces to strip). -/
def wVerse1 : Verse :=
  Verse.new .Genesis 1 1 "In the beginning God created \x7bthe\x7d heaven"

/-- Shared witness corpus: Genesis 1:2 text. -/
def wVerse2 : Verse := Verse.new .Genesis 1 2 "And the earth was without form"

/-- Shared witness corpus: Genesis chapter 1. -/
def wChap1 : Chapter := Chapter.new [wVerse1, wVerse2] 1

/-- Shared witness corpus: the book of Genesis under key "GN". -/
def wBookG : Book := Book.new "GN" "Genesis" [wChap1]

/-- Shared witness corpus: John 1:1 text. -/
def wVerseJ : Verse := Verse.new .John 1 1 "In the beginning was the Word"

/-- Shared witness corpus: the book of John under key "jo". -/
def wBookJ : Book := Book.new "jo" "John" [Chapter.new [wVerseJ] 1]

/-- Shared witness corpus: a two-book Bible with no index built yet. -/
def wBible : Bible :=
  { books := [wBookG, wBookJ],
    index_by_abbrev := [("gn", 0), ("jo", 1)],
    search_index := none,
    id := "en-kjv", name := "King James Version",
    description := "d", language := "English" }

/-- C1 counterexample corpus: a verse stored with verse number 2. -/
def ndVerse : Verse :=
  { book := .Genesis, chapter_number := 1, verse_text := "lone verse",
    verse_number := 2 }

/-- C1 counterexample corpus: a chapter whose only verse bears number 2
(non-dense numbering: no verse numbered 1). -/
def ndChapter : Chapter := { verses := [ndVerse], chapter_number := 1 }

/-- C1 counterexample corpus: a one-chapter book with the non-dense
chapter. -/
def ndBook : Book := { abbr := "gn", title := "Genesis", chapters := [ndChapter] }

/-- Helper: `Char.ofNat` of a code below the surrogate range round-trips
through `Char.toNat`. -/
theorem char_toNat_ofNat_of_lt (n : Nat) (h : n < 55296) :
    (Char.ofNat n).toNat = n := by
  have hv : Nat.isValidChar n := Or.inl h
  unfold Char.ofNat
  rw [dif_pos hv]
  unfold Char.ofNatAux Char.toNat
  simp [UInt32.toNat, UInt32.ofNat', BitVec.toNat_ofNat]

/-- Helper: ASCII lowercasing a char is idempotent. -/
theorem lowerAsciiChar_idem (c : Char) :
    lowerAsciiChar (lowerAsciiChar c) = lowerAsciiChar c := by
  unfold lowerAsciiChar
  by_cases h : 65 ≤ c.toNat ∧ c.toNat ≤ 90
  · have hb : (65 ≤ c.toNat && c.toNat ≤ 90) = true := by
      simp [h.1, h.2]
    rw [if_pos hb]
    have ht : (Char.ofNat (c.toNat + 32)).toNat = c.toNat + 32 :=
      char_toNat_ofNat_of_lt _ (by omega)
    rw [if_neg (by rw [ht]; simp; omega)]
  · have hb : (65 ≤ c.toNat && c.toNat ≤ 90) = false := by
      rw [Bool.and_eq_false_iff]
      rcases Nat.lt_or_ge c.toNat 65 with h1 | h1
      · left; simp; omega
      · right; simp; by_contra h2; exact h ⟨h1, by omega⟩
    rw [if_neg (by simp [hb]), if_neg (by simp [hb])]

/-- Helper: ASCII lowercasing a string is idempotent. -/
theorem toAsciiLowercase_idem (s : String) :
    toAsciiLowercase (toAsciiLowercase s) = toAsciiLowercase s := by
  unfold toAsciiLowercase lowerAsciiList
  simp [List.map_map, Function.comp_def, lowerAsciiChar_idem]

/-- C8: for every book, `get_chapter 0` and `get_chapter (count + 1)`
fail with `ChapterOutOfBounds` carrying the attempted value and the
chapter count, while every `n` with `1 ≤ n ≤ count` returns the chapter
stored at position `n - 1`. -/
theorem C8_get_chapter_bounds (book : Book) :
    book.get_chapter 0 =
      .error (.ChapterOutOfBounds book.abbr book.title 0
        book.chapters.length) ∧
    book.get_chapter (book.chapters.length + 1) =
      .error (.ChapterOutOfBounds book.abbr book.title
        (book.chapters.length + 1) book.chapters.length) ∧
    ∀ n, 1 ≤ n → n ≤ book.chapters.length →
      ∃ h : n - 1 < book.chapters.length,
        book.get_chapter n = .ok (book.chapters.get ⟨n - 1, h⟩) := by
  refine ⟨by simp [Book.get_chapter], ?_, ?_⟩
  · unfold Book.get_chapter
    rw [if_neg (by omega)]
    rw [List.getElem?_eq_none (by omega)]
  · intro n h1 h2
    refine ⟨by omega, ?_⟩
    unfold Book.get_chapter
    rw [if_neg (by omega)]
    rw [List.getElem?_eq_getElem (by omega)]
    simp

/-- C8 witness: the bounds behaviour at the concrete one-chapter Genesis
book of the witness corpus. -/
theorem C8_witness :
    wBookG.get_chapter 0 =
      .error (.ChapterOutOfBounds "gn" "Genesis" 0 1) ∧
    wBookG.get_chapter 2 =
      .error (.ChapterOutOfBounds "gn" "Genesis" 2 1) ∧
    wBookG.get_chapter 1 = .ok wChap1 := by
  obtain ⟨ha, hb, hc⟩ := C8_get_chapter_bounds wBookG
  obtain ⟨_, hc1⟩ := hc 1 (by decide) (by decide)
  exact ⟨ha, hb, hc1⟩

/-- C1 (amended): `Book::get_verse` resolves the chapter first,
propagating `ChapterOutOfBounds`, and then looks the verse up by
POSITION — index `v - 1`, succeeding exactly when `1 ≤ v ≤ verse count`
— failing with `VerseOutOfBounds` carrying the chapter's verse count;
stored verse numbers are not consulted. -/
theorem C1_get_verse_positional (b : Book) (c v : Nat) :
    b.get_verse c v = getVersePositional b c v := by
  unfold Book.get_verse getVersePositional
  cases hch : b.get_chapter c with
  | error e => rfl
  | ok chapter =>
    dsimp only
    unfold Chapter.get_verse
    by_cases hv : v = 0
    · subst hv
      rw [if_pos rfl, dif_neg (by omega)]
      rfl
    · rw [if_neg hv]
      by_cases hlt : v - 1 < chapter.verses.length
      · rw [List.getElem?_eq_getElem hlt]
        rw [dif_pos ⟨by omega, by omega⟩]
        simp
      · rw [List.getElem?_eq_none (by omega)]
        rw [dif_neg (by omega)]
        rfl

/-- C1 counterexample: in a chapter whose only verse is STORED with verse
number 2, looking up verse 2 does not return that verse (as a
number-match scan would) but fails with `VerseOutOfBounds`, because the
code indexes position `2 - 1 = 1`, past the single element. -/
theorem C1_counterexample :
    ndBook.get_verse 1 2 =
      .error (.VerseOutOfBounds "gn" "Genesis" 1 2 1) ∧
    ndChapter.verses.find? (fun w => w.number = 2) = some ndVerse := by
  constructor
  · rfl
  · rfl

/-- C9: a constructed verse stores the input text with every curly brace
removed, so `text` (and everything reading it, such as `display`) sees a
brace-free string, and inputs whose non-brace content agrees produce
equal stored texts. -/
theorem C9_sanitize (book : BibleBook) (c n : Nat) (t : String) :
    (Verse.new book c n t).text = sanitize_verse_text t ∧
    (Verse.new book c n t).display =
      toString n ++ ": " ++ sanitize_verse_text t ∧
    lbraceChar ∉ ((Verse.new book c n t).text).data ∧
    rbraceChar ∉ ((Verse.new book c n t).text).data ∧
    ∀ t' : String, sanitize_verse_text t = sanitize_verse_text t' →
      (Verse.new book c n t).text = (Verse.new book c n t').text := by
  refine ⟨rfl, rfl, ?_, ?_, ?_⟩
  · intro hmem
    exact absurd (List.mem_filter.mp hmem).2 (by decide)
  · intro hmem
    exact absurd (List.mem_filter.mp hmem).2 (by decide)
  · intro t' h
    show sanitize_verse_text t = sanitize_verse_text t'
    exact h

/-- C9 witness: two concrete inputs differing only in braces yield the
same stored text. -/
theorem C9_witness :
    (Verse.new .Genesis 1 1 "a\x7bb\x7dc").text =
      (Verse.new .Genesis 1 1 "abc").text :=
  (C9_sanitize .Genesis 1 1 "a\x7bb\x7dc").2.2.2.2 "abc" (by decide)

/-- Helper: parsing the canonical code of any book yields that book. -/
theorem from_str_as_str (b : BibleBook) :
    BibleBook.from_str b.as_str = some b := by
  cases b <;> rfl

/-- Helper: `all` enumerates every variant. -/
theorem mem_all (b : BibleBook) : b ∈ BibleBook.all := by
  cases b <;> decide

/-- C7: the variant-to-code mapping is a bijection — parsing `as_str b`
returns `b`, distinct variants have distinct codes — parsing is
case-insensitive (lowercasing the input first changes nothing), and
there are exactly 83 variants. -/
theorem C7_code_bijection :
    (∀ b : BibleBook, BibleBook.from_str b.as_str = some b) ∧
    (∀ b b' : BibleBook, b.as_str = b'.as_str → b = b') ∧
    (∀ s : String,
      BibleBook.from_str (toAsciiLowercase s) = BibleBook.from_str s) ∧
    BibleBook.all.length = 83 ∧ (∀ b : BibleBook, b ∈ BibleBook.all) := by
  refine ⟨from_str_as_str, ?_, ?_, by decide, mem_all⟩
  · intro b b' h
    have h1 := from_str_as_str b
    rw [h, from_str_as_str b'] at h1
    exact Option.some_injective _ h1.symm
  · intro s
    unfold BibleBook.from_str
    rw [toAsciiLowercase_idem]

/-- C7 witness: the bijection facts applied at concrete books and a
concrete mixed-case code. -/
theorem C7_witness :
    BibleBook.from_str (BibleBook.as_str .Genesis) = some .Genesis ∧
    (BibleBook.Genesis = BibleBook.Genesis) ∧
    BibleBook.from_str (toAsciiLowercase "GN") = BibleBook.from_str "GN" := by
  refine ⟨C7_code_bijection.1 .Genesis, ?_, C7_code_bijection.2.2.1 "GN"⟩
  exact C7_code_bijection.2.1 .Genesis .Genesis rfl

/-- C2 counterexample: the reference "Genesis 1" (no colon) fails, but
the error is of the `BookNotFound` kind — there is no separate
`ReferenceParseError` variant in `BibleError` at all — carrying the
offending substring in `book_abbrev` (lowercased) and `book_name`. -/
theorem C2_counterexample :
    wBible.get_verse_by_reference "Genesis 1" =
      .error (.BookNotFound "genesis 1" "Genesis 1" "King James Version") := by
  rfl

/-- C2 (amended): every malformed reference — missing `:`, unparseable
verse number, missing space, unparseable chapter number, or unresolvable
book token — fails with the existing `BookNotFound` kind (there is no
`ReferenceParseError` variant), carrying the offending substring
lowercased in `book_abbrev` and verbatim in `book_name`, plus the
translation name. -/
theorem C2_parse_failures (bible : Bible) (reference : String) :
    (rsplitOnce ':' (trimChars reference.data) = none →
      bible.get_verse_by_reference reference =
        .error (.BookNotFound
          (toAsciiLowercase (String.mk (trimChars reference.data)))
          (String.mk (trimChars reference.data)) bible.name)) ∧
    (∀ bc vs, rsplitOnce ':' (trimChars reference.data) = some (bc, vs) →
      parseUsize (trimChars vs) = none →
      bible.get_verse_by_reference reference =
        .error (.BookNotFound
          (toAsciiLowercase (String.mk (trimChars reference.data)))
          (String.mk (trimChars reference.data)) bible.name)) ∧
    (∀ bc vs v, rsplitOnce ':' (trimChars reference.data) = some (bc, vs) →
      parseUsize (trimChars vs) = some v →
      rsplitOnce ' ' bc = none →
      bible.get_verse_by_reference reference =
        .error (.BookNotFound (toAsciiLowercase (String.mk bc))
          (String.mk bc) bible.name)) ∧
    (∀ bc vs v bs cs,
      rsplitOnce ':' (trimChars reference.data) = some (bc, vs) →
      parseUsize (trimChars vs) = some v →
      rsplitOnce ' ' bc = some (bs, cs) →
      parseUsize (trimChars cs) = none →
      bible.get_verse_by_reference reference =
        .error (.BookNotFound (toAsciiLowercase (String.mk bc))
          (String.mk bc) bible.name)) ∧
    (∀ bc vs v bs cs cnum,
      rsplitOnce ':' (trimChars reference.data) = some (bc, vs) →
      parseUsize (trimChars vs) = some v →
      rsplitOnce ' ' bc = some (bs, cs) →
      parseUsize (trimChars cs) = some cnum →
      bible.resolve_book (String.mk (trimChars bs)) = none →
      bible.get_verse_by_reference reference =
        .error (.BookNotFound (toAsciiLowercase (String.mk bs))
          (String.mk bs) bible.name)) := by
  refine ⟨?_, ?_, ?_, ?_, ?_⟩
  · intro h1
    unfold Bible.get_verse_by_reference Bible.parse_error
    dsimp only
    rw [h1]
  · intro bc vs h1 h2
    unfold Bible.get_verse_by_reference Bible.parse_error
    dsimp only
    rw [h1]
    dsimp only
    rw [h2]
  · intro bc vs v h1 h2 h3
    unfold Bible.get_verse_by_reference Bible.parse_error
    dsimp only
    rw [h1]
    dsimp only
    rw [h2]
    dsimp only
    rw [h3]
  · intro bc vs v bs cs h1 h2 h3 h4
    unfold Bible.get_verse_by_reference Bible.parse_error
    dsimp only
    rw [h1]
    dsimp only
    rw [h2]
    dsimp only
    rw [h3]
    dsimp only
    rw [h4]
  · intro bc vs v bs cs cnum h1 h2 h3 h4 h5
    unfold Bible.get_verse_by_reference Bible.parse_error
    dsimp only
    rw [h1]
    dsimp only
    rw [h2]
    dsimp only
    rw [h3]
    dsimp only
    rw [h4]
    dsimp only
    rw [h5]

/-- C2 witness: the amended statement applied at two concrete malformed
references — a missing colon, and an unresolvable book token. -/
theorem C2_witness :
    wBible.get_verse_by_reference "Genesis 1" =
      .error (.BookNotFound "genesis 1" "Genesis 1" "King James Version") ∧
    wBible.get_verse_by_reference "Unknown 1:1" =
      .error (.BookNotFound "unknown" "Unknown" "King James Version") := by
  constructor
  · have h := (C2_parse_failures wBible "Genesis 1").1 (by decide)
    exact h
  · have h := (C2_parse_failures wBible "Unknown 1:1").2.2.2.2
      "Unknown 1".data "1".data 1 "Unknown".data "1".data 1
      (by decide) (by decide) (by decide) (by decide) (by decide)
    exact h

/-- Helper: `find?` returns the element at the first index whose
predicate holds when all earlier elements fail it. -/
theorem find?_first_match {α : Type} (p : α → Bool) :
    ∀ (l : List α) (i : Nat) (a : α), l[i]? = some a → p a = true →
    (∀ j, j < i → ∀ b, l[j]? = some b → p b = false) →
    l.find? p = some a := by
  intro l
  induction l with
  | nil => intro i a hi; simp at hi
  | cons x xs ih =>
    intro i a hi hp hbefore
    cases i with
    | zero =>
      simp at hi
      subst hi
      simp [List.find?_cons, hp]
    | succ k =>
      have hx : p x = false := hbefore 0 (Nat.succ_pos k) x (by simp)
      simp at hi
      rw [List.find?_cons, hx]
      exact ih k a hi hp
        (fun j hj b hb => hbefore (j + 1) (by omega) b (by simpa using hb))

/-- C5: book-token resolution follows the fixed precedence — first-match
scan of `ALT_ABBREVS` in declaration order on the lowercased token, then
the canonical-code parse, then a scan of the loaded books for a
case-insensitive title match that succeeds only when the matching book's
own abbrev parses to a canonical identity; each stage is reached only
when all earlier stages fail, and the procedure is a pure function of
its inputs. -/
theorem C5_resolve_precedence (bible : Bible) (input : String) :
    (∀ (i : Nat) (entry : String × BibleBook),
      ALT_ABBREVS[i]? = some entry →
      (entry.1 = toAsciiLowercase input) →
      (∀ (j : Nat), j < i → ∀ (e : String × BibleBook),
        ALT_ABBREVS[j]? = some e → e.1 ≠ toAsciiLowercase input) →
      bible.resolve_book input = some entry.2) ∧
    ((∀ e ∈ ALT_ABBREVS, e.1 ≠ toAsciiLowercase input) →
      ∀ b, BibleBook.from_str (toAsciiLowercase input) = some b →
      bible.resolve_book input = some b) ∧
    ((∀ e ∈ ALT_ABBREVS, e.1 ≠ toAsciiLowercase input) →
      BibleBook.from_str (toAsciiLowercase input) = none →
      bible.resolve_book input =
        (bible.books.find? (fun b => eqIgnoreAsciiCase b.title input)).bind
          (fun b => BibleBook.from_str (toAsciiLowercase b.abbr))) := by
  refine ⟨?_, ?_, ?_⟩
  · intro i entry hi hentry hbefore
    unfold Bible.resolve_book
    dsimp only
    rw [find?_first_match _ ALT_ABBREVS i entry hi (by simp [hentry])
      (fun j hj b hb => by simpa using hbefore j hj b hb)]
  · intro hnone b hb
    unfold Bible.resolve_book
    dsimp only
    rw [List.find?_eq_none.mpr (fun e he => by simpa using hnone e he)]
    dsimp only
    rw [hb]
  · intro hnone hcode
    unfold Bible.resolve_book
    dsimp only
    rw [List.find?_eq_none.mpr (fun e he => by simpa using hnone e he)]
    dsimp only
    rw [hcode]
    dsimp only
    cases hf : bible.books.find? (fun b => eqIgnoreAsciiCase b.title input) with
    | none => rfl
    | some b => rfl

set_option maxRecDepth 40000 in
/-- C5 witness: the three stages at concrete tokens against the witness
corpus — an alias-table hit ("Gen", first entry), a canonical-code hit
("2KGS", absent from the alias table), and a loaded-title fallback
("Genesis"). -/
theorem C5_witness :
    wBible.resolve_book "Gen" = some .Genesis ∧
    wBible.resolve_book "2KGS" = some .SecondKings ∧
    wBible.resolve_book "Genesis" = some .Genesis := by
  obtain ⟨h1, h2, h3⟩ := C5_resolve_precedence wBible "Gen"
  obtain ⟨g1, g2, g3⟩ := C5_resolve_precedence wBible "2KGS"
  obtain ⟨k1, k2, k3⟩ := C5_resolve_precedence wBible "Genesis"
  refine ⟨?_, ?_, ?_⟩
  · exact h1 0 ("gen", .Genesis) (by decide) (by decide)
      (fun j hj e he => absurd hj (by omega))
  · exact g2 (by decide) .SecondKings (by decide)
  · have := k3 (by decide) (by decide)
    rw [this]
    decide

/-- C6: a well-formed reference — split at the last `:`, then the last
space, with all components trimmed, numbers parsed, and the book token
resolved — delegates to `get_verse` on the resolved triple, propagating
its result unchanged. -/
theorem C6_reference_delegates (bible : Bible) (reference : String)
    (bc vs : List Char)
    (h1 : rsplitOnce ':' (trimChars reference.data) = some (bc, vs))
    (v : Nat) (h2 : parseUsize (trimChars vs) = some v)
    (bs cs : List Char) (h3 : rsplitOnce ' ' bc = some (bs, cs))
    (c : Nat) (h4 : parseUsize (trimChars cs) = some c)
    (book : BibleBook)
    (h5 : bible.resolve_book (String.mk (trimChars bs)) = some book) :
    bible.get_verse_by_reference reference = bible.get_verse book c v := by
  unfold Bible.get_verse_by_reference
  dsimp only
  rw [h1]
  dsimp only
  rw [h2]
  dsimp only
  rw [h3]
  dsimp only
  rw [h4]
  dsimp only
  rw [h5]

/-- C6 witness: "Gen 1:1" against the witness corpus delegates to
`get_verse Genesis 1 1` (both sides evaluate to Genesis 1:1). -/
theorem C6_witness :
    wBible.get_verse_by_reference "Gen 1:1" =
      wBible.get_verse .Genesis 1 1 ∧
    wBible.get_verse .Genesis 1 1 = .ok wVerse1 := by
  constructor
  · exact C6_reference_delegates wBible "Gen 1:1"
      "Gen 1".data "1".data (by decide)
      1 (by decide)
      "Gen".data "1".data (by decide)
      1 (by decide)
      .Genesis (by decide)
  · rfl

/-- Helper: searching any index with the empty query yields nothing. -/
theorem searchIndex_search_empty (si : SearchIndex) : si.search "" = [] :=
  rfl

/-- Helper: `Bible::search` on the empty query returns immediately. -/
theorem bible_search_empty (bible : Bible) : bible.search "" = ([], bible) := by
  unfold Bible.search
  rw [if_pos rfl]

/-- Helper: `Bible::search` with no cached index builds, stores and
queries the built index. -/
theorem bible_search_none (bible : Bible)
    (hnone : bible.search_index = none) (q : String) (hq : q ≠ "") :
    bible.search q = ((bible.build_search_index).search q,
      { bible with search_index := some bible.build_search_index }) := by
  unfold Bible.search
  rw [if_neg hq, hnone]

/-- Helper: `Bible::search` with a cached index queries it and leaves the
state untouched. -/
theorem bible_search_some (bible : Bible) (idx : SearchIndex)
    (hsome : bible.search_index = some idx) (q : String) (hq : q ≠ "") :
    bible.search q = (idx.search q, bible) := by
  unfold Bible.search
  rw [if_neg hq, hsome]

/-- C10: `Bible::search` changes at most the cached `search_index` field
— books, abbrev index and all metadata are untouched; a cached index is
never replaced; and on the first non-empty-query call the field goes
from unbuilt to the built index. -/
theorem C10_search_frame (bible : Bible) (q : String) (r : List Loc)
    (b' : Bible) (h : bible.search q = (r, b')) :
    b'.books = bible.books ∧
    b'.index_by_abbrev = bible.index_by_abbrev ∧
    b'.id = bible.id ∧ b'.name = bible.name ∧
    b'.description = bible.description ∧ b'.language = bible.language ∧
    (∀ idx, bible.search_index = some idx → b'.search_index = some idx) ∧
    (bible.search_index = none → q ≠ "" →
      b'.search_index = some bible.build_search_index) := by
  by_cases hq : q = ""
  · subst hq
    rw [bible_search_empty] at h
    injection h with h1 h2
    subst h2
    exact ⟨rfl, rfl, rfl, rfl, rfl, rfl, fun idx hidx => hidx,
      fun _ hne => absurd rfl hne⟩
  · cases hsi : bible.search_index with
    | some idx =>
      rw [bible_search_some bible idx hsi q hq] at h
      injection h with h1 h2
      subst h2
      refine ⟨rfl, rfl, rfl, rfl, rfl, rfl, ?_, ?_⟩
      · intro idx2 hidx
        rw [hsi]
        exact hidx
      · exact fun hnone _ => absurd hnone (by simp)
    | none =>
      rw [bible_search_none bible hsi q hq] at h
      injection h with h1 h2
      subst h2
      refine ⟨rfl, rfl, rfl, rfl, rfl, rfl, ?_, fun _ _ => rfl⟩
      exact fun idx2 hidx => absurd hidx (by simp)

/-- C10 witness: the frame conditions at the concrete corpus and query. -/
theorem C10_witness :
    (wBible.search "beginning").2.books = wBible.books ∧
    (wBible.search "beginning").2.search_index =
      some wBible.build_search_index := by
  obtain ⟨hb, _, _, _, _, _, _, hlast⟩ :=
    C10_search_frame wBible "beginning" (wBible.search "beginning").1
      (wBible.search "beginning").2 rfl
  exact ⟨hb, hlast rfl (by decide)⟩

/-- C3: starting from a freshly built `Bible` (no cached index, or a
cache equal to the built index), `Bible::search` returns exactly what
`SearchIndex::search` returns on a `build_search_index`-once index, and
an immediately repeated call with the same query returns the same
sequence. -/
theorem C3_search_equiv (bible : Bible) (q : String)
    (h : bible.search_index = none ∨
      bible.search_index = some bible.build_search_index) :
    (bible.search q).1 = (bible.build_search_index).search q ∧
    (((bible.search q).2).search q).1 = (bible.search q).1 := by
  by_cases hq : q = ""
  · subst hq
    rw [bible_search_empty]
    exact ⟨(searchIndex_search_empty _).symm, by rw [bible_search_empty]⟩
  · rcases h with hnone | hsome
    · rw [bible_search_none bible hnone q hq]
      refine ⟨rfl, ?_⟩
      dsimp only
      rw [bible_search_some _ bible.build_search_index rfl q hq]
    · rw [bible_search_some bible _ hsome q hq]
      refine ⟨rfl, ?_⟩
      dsimp only
      rw [bible_search_some bible _ hsome q hq]

/-- C3 witness: the equivalence at the concrete corpus and a concrete
query, with the no-cache hypothesis discharged definitionally. -/
theorem C3_witness :
    (wBible.search "in the beginning").1 =
      (wBible.build_search_index).search "in the beginning" ∧
    (((wBible.search "in the beginning").2).search "in the beginning").1 =
      (wBible.search "in the beginning").1 :=
  C3_search_equiv wBible "in the beginning" (Or.inl rfl)

/-- Helper: `ofOrdinal` inverts `ordinal` on every variant. -/
theorem ofOrdinal_ordinal (b : BibleBook) : ofOrdinal b.ordinal = some b := by
  cases b <;> rfl

/-- Helper: the declaration-order discriminant is injective. -/
theorem ordinal_inj (b b' : BibleBook) (h : b.ordinal = b'.ordinal) :
    b = b' := by
  have h1 := ofOrdinal_ordinal b
  rw [h, ofOrdinal_ordinal b'] at h1
  exact Option.some_injective _ h1.symm

/-- Helper: the posting sort key comparison is transitive. -/
theorem locKeyLe_trans (a b c : Loc) (hab : locKeyLe a b = true)
    (hbc : locKeyLe b c = true) : locKeyLe a c = true := by
  simp [locKeyLe] at *
  omega

/-- Helper: the posting sort key comparison is total. -/
theorem locKeyLe_total (a b : Loc) : (locKeyLe a b || locKeyLe b a) = true := by
  simp [locKeyLe]
  omega

/-- Helper: non-strict key order plus distinctness gives strict key
order, because the key `(ordinal, chapter, verse)` determines the
location. -/
theorem locKeyLe_ne_lt (a b : Loc) (hle : locKeyLe a b = true)
    (hne : a ≠ b) : locKeyLt a b := by
  obtain ⟨a1, a2, a3⟩ := a
  obtain ⟨b1, b2, b3⟩ := b
  have hp : a1.ordinal < b1.ordinal ∨ (a1.ordinal = b1.ordinal ∧
      (a2 < b2 ∨ (a2 = b2 ∧ a3 ≤ b3))) := by
    simpa [locKeyLe] using hle
  unfold locKeyLt
  rcases hp with h | ⟨ho, h2⟩
  · exact Or.inl h
  · refine Or.inr ⟨ho, ?_⟩
    rcases h2 with h2 | ⟨hc, hv⟩
    · exact Or.inl h2
    · rcases Nat.lt_or_ge a3 b3 with h3 | h3
      · exact Or.inr ⟨hc, h3⟩
      · exfalso
        have hv3 : a3 = b3 := by omega
        exact hne (by rw [ordinal_inj a1 b1 ho, hc, hv3])

/-- Helper: one entry-API insertion keeps every bucket duplicate-free. -/
theorem insertPosting_nodup (m : List (String × List Loc)) (term : String)
    (loc : Loc) (hm : ∀ p ∈ m, p.2.Nodup) :
    ∀ p ∈ Bible.insertPosting m term loc, p.2.Nodup := by
  induction m with
  | nil =>
    intro p hp
    simp [Bible.insertPosting] at hp
    subst hp
    simp
  | cons x rest ih =>
    obtain ⟨t, locs⟩ := x
    intro p hp
    simp only [Bible.insertPosting] at hp
    by_cases ht : t = term
    · rw [if_pos ht] at hp
      rcases List.mem_cons.mp hp with hp | hp
      · subst hp
        by_cases hc : locs.contains loc
        · rw [if_pos hc]
          exact hm (t, locs) (List.mem_cons_self _ _)
        · rw [if_neg hc]
          have hnotin : loc ∉ locs := by simpa using hc
          refine List.nodup_append.mpr
            ⟨hm (t, locs) (List.mem_cons_self _ _), List.nodup_singleton _,
              ?_⟩
          intro x hx hx1
          rw [List.mem_singleton.mp hx1] at hx
          exact hnotin hx
      · exact hm p (List.mem_cons_of_mem _ hp)
    · rw [if_neg ht] at hp
      rcases List.mem_cons.mp hp with hp | hp
      · subst hp
        exact hm (t, locs) (List.mem_cons_self _ _)
      · exact ih (fun q hq => hm q (List.mem_cons_of_mem _ hq)) p hp

/-- Helper: folding the whole scan through the insertion keeps every
bucket duplicate-free. -/
theorem foldl_insertPosting_nodup (pairs : List (String × Loc)) :
    ∀ m, (∀ p ∈ m, p.2.Nodup) →
    ∀ p ∈ pairs.foldl (fun m pr => Bible.insertPosting m pr.1 pr.2) m,
      p.2.Nodup := by
  induction pairs with
  | nil => exact fun m hm => hm
  | cons pr rest ih =>
    intro m hm
    simp only [List.foldl_cons]
    exact ih _ (insertPosting_nodup m pr.1 pr.2 hm)

/-- C4: in the index produced by `build_search_index`, every term's
posting list holds each `(book, chapter, verse)` location at most once
and is strictly ascending in the `(book ordinal, chapter, verse)` key. -/
theorem C4_postings_sorted_nodup (bible : Bible) (term : String)
    (postings : List Loc)
    (h : (term, postings) ∈ (bible.build_search_index).index) :
    postings.Nodup ∧ postings.Pairwise locKeyLt := by
  unfold Bible.build_search_index SearchIndex.new at h
  dsimp only at h
  obtain ⟨p, hp, heq⟩ := List.mem_map.mp h
  obtain ⟨t0, locs0⟩ := p
  injection heq with he1 he2
  subst he2
  have hnd : locs0.Nodup :=
    foldl_insertPosting_nodup bible.scanPairs [] (by simp) (t0, locs0) hp
  haveI : IsTrans Loc (fun a b => locKeyLe a b = true) :=
    ⟨fun a b c => locKeyLe_trans a b c⟩
  haveI : IsTotal Loc (fun a b => locKeyLe a b = true) :=
    ⟨fun a b => by
      have ht := locKeyLe_total a b
      rcases Bool.or_eq_true_iff.mp ht with h | h
      · exact Or.inl h
      · exact Or.inr h⟩
  have hperm :=
    List.perm_insertionSort (fun a b => locKeyLe a b = true) locs0
  have hndS : (sortLocs locs0).Nodup := hperm.symm.nodup hnd
  have hsorted : (sortLocs locs0).Pairwise
      (fun a b => locKeyLe a b = true) :=
    List.sorted_insertionSort (fun a b => locKeyLe a b = true) locs0
  refine ⟨hndS, ?_⟩
  exact (hsorted.and hndS).imp
    (fun {a b} hab => locKeyLe_ne_lt a b hab.1 hab.2)

/-- C4 witness: the posting list for "the" in the concrete corpus's index
is duplicate-free and strictly ascending. -/
theorem C4_witness :
    ([(BibleBook.Genesis, 1, 1), (BibleBook.Genesis, 1, 2),
      (BibleBook.John, 1, 1)] : List Loc).Nodup ∧
    List.Pairwise locKeyLt
      [(BibleBook.Genesis, 1, 1), (BibleBook.Genesis, 1, 2),
       (BibleBook.John, 1, 1)] :=
  C4_postings_sorted_nodup wBible "the" _ (by decide)
